import Mathlib

set_option autoImplicit false

namespace GroupPy

/-!
Shallow embedding of the group-py dispatch engine.

Source files embedded here:
- `src/group_py/models.py` : `Message` dataclass and `Message.from_dict`.
- `src/group_py/bot.py` : `GroupMeBotManager` handler registries
  (`_handlers`, `_commands`, `_async_commands`, `_unknown_command_handler`),
  the registration decorators (`on_message`, `command`, `async_command`,
  `on_unknown_command`) and the dispatch pipeline `process_webhook`.
  `src/groupme_bot/bot.py` has `GroupMeBot.process_message` with a
  line-for-line identical dispatch body; one embedding covers both.

Handlers are modelled by an identity number `hid` plus a flag `raises`
saying whether calling the handler raises an exception.  Dispatch is a
total function producing the ordered list of observable events (storage
write, acknowledgment send, background submission, handler invocations).
Every handler call site in the source is wrapped in `try/except`, which is
mirrored by recording the raised flag in the event and continuing; the
embedded dispatch therefore returns a plain trace and never propagates a
handler failure, exactly as the Python function never lets one escape.
-/

/-- One attachment record of the webhook payload (`"type"` key modelled as
`kind`).  No claim inspects attachments; the field is carried for fidelity
of the `Message` shape. -/
structure Attachment where
  kind : String
  url : Option String
  deriving DecidableEq

/-- The `Message` dataclass of `src/group_py/models.py` (lines 8-21). -/
structure Message where
  id : String
  text : Option String
  user_id : String
  name : String
  group_id : String
  created_at : Nat
  system : Bool
  sender_type : String
  avatar_url : Option String
  attachments : Option (List Attachment)
  deriving DecidableEq

/-- A webhook payload dict, with one optional slot per key that
`Message.from_dict` reads; `none` models an absent key. -/
structure Payload where
  id : Option String
  text : Option String
  user_id : Option String
  name : Option String
  group_id : Option String
  created_at : Option Nat
  system : Option Bool
  sender_type : Option String
  avatar_url : Option String
  attachments : Option (List Attachment)
  deriving DecidableEq

/-- `Message.from_dict` of `src/group_py/models.py` lines 23-46:
`data.get(key, default)` becomes `Option.getD`; `data.get("text")` with no
default stays optional. -/
def Message.from_dict (data : Payload) : Message where
  id := data.id.getD ""
  text := data.text
  user_id := data.user_id.getD ""
  name := data.name.getD "Unknown"
  group_id := data.group_id.getD ""
  created_at := data.created_at.getD 0
  system := data.system.getD false
  sender_type := data.sender_type.getD "user"
  avatar_url := data.avatar_url
  attachments := some (data.attachments.getD [])

/-- A registered handler: an identity and whether calling it raises. -/
structure Handler where
  hid : Nat
  raises : Bool
  deriving DecidableEq

/-- The mutable registries of `GroupMeBotManager` (`src/group_py/bot.py`
lines 95-98) plus the storage flag: `_handlers` is the catch-all list,
`_commands` and `_async_commands` are insertion-ordered dicts (modelled as
association lists), `_unknown_command_handler` is a single optional slot. -/
structure BotState where
  handlers : List Handler
  commands : List (String × Handler)
  asyncCommands : List (String × Handler × Option String)
  unknownCommandHandler : Option Handler
  storageEnabled : Bool
  deriving DecidableEq

/-- Python dict assignment `d[k] = v` on an insertion-ordered dict: if the
key is present its value is replaced in place, otherwise the pair is
appended at the end (CPython semantics). -/
def dictAssign {α : Type} (k : String) (v : α) : List (String × α) → List (String × α)
  | [] => [(k, v)]
  | (k', v') :: rest =>
      if k' = k then (k, v) :: rest else (k', v') :: dictAssign k v rest

/-- `on_message` decorator (`src/group_py/bot.py` lines 248-260):
appends to `_handlers`. -/
def on_message (st : BotState) (h : Handler) : BotState :=
  { st with handlers := st.handlers ++ [h] }

/-- `command` decorator (`src/group_py/bot.py` lines 262-281):
`self._commands[prefix] = func`. -/
def command (st : BotState) (pfx : String) (h : Handler) : BotState :=
  { st with commands := dictAssign pfx h st.commands }

/-- `async_command` decorator (`src/group_py/bot.py` lines 283-305):
`self._async_commands[prefix] = (func, ack_message)`. -/
def async_command (st : BotState) (pfx : String) (h : Handler)
    (ack : Option String) : BotState :=
  { st with asyncCommands := dictAssign pfx (h, ack) st.asyncCommands }

/-- `on_unknown_command` decorator (`src/group_py/bot.py` lines 307-318):
overwrites the single slot. -/
def on_unknown_command (st : BotState) (h : Handler) : BotState :=
  { st with unknownCommandHandler := some h }

/-- Observable effects of one dispatch call, in order of occurrence. -/
inductive Event where
  | storeReceived : Event
  | sendAck (text : String) (ok : Bool) : Event
  | submitAsync (hid : Nat) (args : String) : Event
  | invokeSync (hid : Nat) (args : String) (raised : Bool) : Event
  | invokeUnknown (hid : Nat) (fullText : String) (raised : Bool) : Event
  | invokeCatchAll (hid : Nat) (raised : Bool) : Event
  deriving DecidableEq

/-- Python `t.startswith(p)`: `p` is a character-wise prefix of `t`. -/
def pyStartsWith (t p : String) : Bool :=
  p.data.isPrefixOf t.data

/-- Python `s.strip()`: remove whitespace from both ends (ASCII whitespace;
the unicode extras Python also strips never arise in the claims). -/
def pyStrip (s : String) : String :=
  ⟨((s.data.dropWhile Char.isWhitespace).reverse.dropWhile
      Char.isWhitespace).reverse⟩

/-- The `args` extraction `message.text[len(prefix):].strip()` of
`bot.py` lines 364 and 387: drop the characters of the matched prefix,
then strip surrounding whitespace. -/
def argsAfter (t p : String) : String :=
  pyStrip ⟨t.data.drop p.data.length⟩

/-- The storage pre-step (`bot.py` lines 334-339): one write attempt when
storage is configured, failure absorbed. -/
def storeEvents (st : BotState) : List Event :=
  if st.storageEnabled then [Event.storeReceived] else []

/-- The body of one catch-all loop iteration (`bot.py` lines 404-408):
`try: handler(message) except: log` — the raised flag is recorded and the
loop continues either way. -/
def callCatchAll (h : Handler) : Event :=
  Event.invokeCatchAll h.hid h.raises

/-- The catch-all fan-out loop over `_handlers`, in registration order. -/
def catchAllEvents (st : BotState) : List Event :=
  st.handlers.map callCatchAll

/-- The acknowledgment step of the async branch (`bot.py` lines 367-371):
`if ack_message:` is Python truthiness, so `None` and `""` both skip the
send; a failing send (`ok = false`) is caught and recorded only. -/
def ackEvents : Option String → Bool → List Event
  | none, _ => []
  | some s, ok => if s = "" then [] else [Event.sendAck s ok]

/-- First entry of an insertion-ordered dict whose key is a string prefix
of the text: the `for prefix, ... in dict.items(): if message.text.startswith(prefix)`
scan of `bot.py` lines 362-363 and 385-386. -/
def firstMatch {α : Type} (t : String) : List (String × α) → Option (String × α)
  | [] => none
  | (p, v) :: rest => if pyStartsWith t p then some (p, v) else firstMatch t rest

/-- The command-marker test of `bot.py` line 395:
`message.text.startswith(("/", "!"))`. -/
def looksLikeCommand (t : String) : Bool :=
  pyStartsWith t "/" || pyStartsWith t "!"

/-- The routing tail of `process_webhook` for a non-bot message with
non-empty text (`src/group_py/bot.py` lines 361-408): async-command scan,
then sync-command scan, then unknown-command check, then catch-all loop.
Note the source returns inside `if self._unknown_command_handler:` only,
so with no unknown handler registered a marker-prefixed text falls through
to the catch-all loop. -/
def dispatchText (st : BotState) (sendOk : Bool) (t : String) : List Event :=
  match firstMatch t st.asyncCommands with
  | some (pfx, h, ack) =>
      ackEvents ack sendOk ++
        [Event.submitAsync h.hid (argsAfter t pfx)]
  | none =>
    match firstMatch t st.commands with
    | some (pfx, h) =>
        [Event.invokeSync h.hid (argsAfter t pfx) h.raises]
    | none =>
      if looksLikeCommand t then
        match st.unknownCommandHandler with
        | some h => [Event.invokeUnknown h.hid t h.raises]
        | none => catchAllEvents st
      else catchAllEvents st

/-- `GroupMeBotManager.process_webhook` (`src/group_py/bot.py` lines
320-408), identically `GroupMeBot.process_message` (`src/groupme_bot/bot.py`
lines 207-289): storage pre-step, bot-sender filter, no-text catch-all
fallback (Python `if not message.text:` is true for `None` and for `""`),
then the text router.  `sendOk` says whether outbound sends succeed. -/
def process_message (st : BotState) (sendOk : Bool) (msg : Message) : List Event :=
  storeEvents st ++
    (if msg.sender_type = "bot" then []
     else
       match msg.text with
       | none => catchAllEvents st
       | some t => if t = "" then catchAllEvents st else dispatchText st sendOk t)

/-- Branch observation: some background submission occurs in the trace. -/
def firedAsync (tr : List Event) : Prop :=
  ∃ hid args, Event.submitAsync hid args ∈ tr

/-- Branch observation: some synchronous command invocation occurs. -/
def firedSync (tr : List Event) : Prop :=
  ∃ hid args r, Event.invokeSync hid args r ∈ tr

/-- Branch observation: the unknown-command handler is invoked. -/
def firedUnknown (tr : List Event) : Prop :=
  ∃ hid s r, Event.invokeUnknown hid s r ∈ tr

/-- Branch observation: the trace is exactly the storage pre-step followed
by the full catch-all fan-out over the registered handlers. -/
def firedCatchAll (st : BotState) (tr : List Event) : Prop :=
  tr = storeEvents st ++ catchAllEvents st

/-- Exactly one of four propositions holds. -/
def ExactlyOneOfFour (a b c d : Prop) : Prop :=
  (a ∨ b ∨ c ∨ d) ∧
    ¬(a ∧ b) ∧ ¬(a ∧ c) ∧ ¬(a ∧ d) ∧ ¬(b ∧ c) ∧ ¬(b ∧ d) ∧ ¬(c ∧ d)

/-- A user-sent message fixture with the given text slot. -/
def userMsg (t : Option String) : Message where
  id := "msg_1"
  text := t
  user_id := "user_1"
  name := "Alice"
  group_id := "group_1"
  created_at := 1234567890
  system := false
  sender_type := "user"
  avatar_url := none
  attachments := some []

/-- A bot-sent message fixture. -/
def botMsg (t : Option String) : Message :=
  { userMsg t with sender_type := "bot" }

/-- A manager state with nothing registered and storage disabled. -/
def emptyState : BotState where
  handlers := []
  commands := []
  asyncCommands := []
  unknownCommandHandler := none
  storageEnabled := false

/-- Fixture: one catch-all handler registered, nothing else. -/
def stOneCatch : BotState := on_message emptyState ⟨0, false⟩

/-- Fixture: one catch-all handler and an unknown-command handler. -/
def stUnknown : BotState := on_unknown_command stOneCatch ⟨5, false⟩

/-- Fixture: two catch-all handlers, the first of which raises. -/
def stTwoCatch : BotState :=
  on_message (on_message emptyState ⟨0, true⟩) ⟨1, false⟩

/-- Fixture: one async command with acknowledgment text, plus one catch-all
handler that would be reachable only by fall-through. -/
def stAsync : BotState :=
  async_command stOneCatch "/think" ⟨3, false⟩ (some "Thinking...")

/-- Fixture: one sync command "/echo". -/
def stEcho : BotState := command emptyState "/echo" ⟨7, false⟩

/-- Fixture: the prefix "/dup" registered both as a sync command and as an
async command. -/
def stDup : BotState :=
  async_command (command emptyState "/dup" ⟨1, false⟩) "/dup" ⟨2, false⟩ none

/-- Fixture: an async command registered with an empty acknowledgment
string. -/
def stEmptyAck : BotState :=
  async_command emptyState "/th" ⟨3, false⟩ (some "")

/-- Fixture: a webhook payload with every key absent. -/
def emptyPayload : Payload where
  id := none
  text := none
  user_id := none
  name := none
  group_id := none
  created_at := none
  system := none
  sender_type := none
  avatar_url := none
  attachments := none

lemma mem_storeEvents {st : BotState} {e : Event} (he : e ∈ storeEvents st) :
    e = Event.storeReceived := by
  unfold storeEvents at he
  split at he
  · simpa using he
  · simp at he

lemma mem_catchAllEvents {st : BotState} {e : Event}
    (he : e ∈ catchAllEvents st) : ∃ hid r, e = Event.invokeCatchAll hid r := by
  unfold catchAllEvents at he
  rcases List.mem_map.mp he with ⟨h, _, rfl⟩
  exact ⟨h.hid, h.raises, rfl⟩

lemma mem_ackEvents {ack : Option String} {ok : Bool} {e : Event}
    (he : e ∈ ackEvents ack ok) : ∃ s, e = Event.sendAck s ok := by
  match ack with
  | none => simp [ackEvents] at he
  | some s =>
      by_cases hs : s = ""
      · simp [ackEvents, hs] at he
      · simp [ackEvents, hs] at he
        exact ⟨s, he⟩

lemma mem_store_catch {st : BotState} {e : Event}
    (he : e ∈ storeEvents st ++ catchAllEvents st) :
    e = Event.storeReceived ∨ ∃ hid r, e = Event.invokeCatchAll hid r := by
  rcases List.mem_append.mp he with h | h
  · exact Or.inl (mem_storeEvents h)
  · exact Or.inr (mem_catchAllEvents h)

lemma not_firedAsync_store_catch (st : BotState) :
    ¬ firedAsync (storeEvents st ++ catchAllEvents st) := by
  rintro ⟨hid, args, hmem⟩
  rcases mem_store_catch hmem with h | ⟨h1, r, h⟩ <;> cases h

lemma not_firedSync_store_catch (st : BotState) :
    ¬ firedSync (storeEvents st ++ catchAllEvents st) := by
  rintro ⟨hid, args, r, hmem⟩
  rcases mem_store_catch hmem with h | ⟨h1, r', h⟩ <;> cases h

lemma not_firedUnknown_store_catch (st : BotState) :
    ¬ firedUnknown (storeEvents st ++ catchAllEvents st) := by
  rintro ⟨hid, s, r, hmem⟩
  rcases mem_store_catch hmem with h | ⟨h1, r', h⟩ <;> cases h

lemma firstMatch_isSome_of_mem {α : Type} {t p : String} {v : α}
    {l : List (String × α)} (hmem : (p, v) ∈ l)
    (hpre : pyStartsWith t p = true) :
    ∃ q w, firstMatch t l = some (q, w) := by
  induction l with
  | nil => cases hmem
  | cons head rest ih =>
      obtain ⟨q, w⟩ := head
      by_cases hq : pyStartsWith t q
      · exact ⟨q, w, by simp [firstMatch, hq]⟩
      · rcases List.mem_cons.mp hmem with heq | hmem'
        · cases heq
          exact absurd hpre hq
        · rcases ih hmem' with ⟨q', w', h⟩
          exact ⟨q', w', by simp [firstMatch, hq, h]⟩

lemma dictAssign_same {α : Type} (k : String) (v1 v2 : α)
    (l : List (String × α)) :
    dictAssign k v2 (dictAssign k v1 l) = dictAssign k v2 l := by
  induction l with
  | nil => simp [dictAssign]
  | cons head rest ih =>
      obtain ⟨k', v'⟩ := head
      by_cases hk : k' = k
      · subst hk
        simp [dictAssign]
      · simp [dictAssign, hk, ih]

lemma mem_async_shape {st : BotState} {ack : Option String} {ok : Bool}
    {hid : Nat} {args : String} {e : Event}
    (he : e ∈ storeEvents st ++
      (ackEvents ack ok ++ [Event.submitAsync hid args])) :
    e = Event.storeReceived ∨ (∃ s, e = Event.sendAck s ok) ∨
      e = Event.submitAsync hid args := by
  rcases List.mem_append.mp he with h | h
  · exact Or.inl (mem_storeEvents h)
  · rcases List.mem_append.mp h with h | h
    · exact Or.inr (Or.inl (mem_ackEvents h))
    · exact Or.inr (Or.inr (by simpa using h))

lemma mem_store_single {st : BotState} {x e : Event}
    (he : e ∈ storeEvents st ++ [x]) :
    e = Event.storeReceived ∨ e = x := by
  rcases List.mem_append.mp he with h | h
  · exact Or.inl (mem_storeEvents h)
  · exact Or.inr (by simpa using h)

lemma process_message_text {st : BotState} {sendOk : Bool} {msg : Message}
    {t : String} (hs : msg.sender_type ≠ "bot") (ht : msg.text = some t)
    (ht0 : t ≠ "") :
    process_message st sendOk msg = storeEvents st ++ dispatchText st sendOk t := by
  simp [process_message, hs, ht, ht0]

lemma process_message_noText {st : BotState} {sendOk : Bool} {msg : Message}
    (hs : msg.sender_type ≠ "bot")
    (ht : msg.text = none ∨ msg.text = some "") :
    process_message st sendOk msg = storeEvents st ++ catchAllEvents st := by
  rcases ht with ht | ht <;> simp [process_message, hs, ht]

lemma exactlyOneOfFour_first {a b c d : Prop} (ha : a) (hb : ¬b) (hc : ¬c)
    (hd : ¬d) : ExactlyOneOfFour a b c d :=
  ⟨Or.inl ha, fun h => hb h.2, fun h => hc h.2, fun h => hd h.2,
    fun h => hb h.1, fun h => hb h.1, fun h => hc h.1⟩

lemma exactlyOneOfFour_second {a b c d : Prop} (hb : b) (ha : ¬a) (hc : ¬c)
    (hd : ¬d) : ExactlyOneOfFour a b c d :=
  ⟨Or.inr (Or.inl hb), fun h => ha h.1, fun h => ha h.1, fun h => ha h.1,
    fun h => hc h.2, fun h => hd h.2, fun h => hc h.1⟩

lemma exactlyOneOfFour_third {a b c d : Prop} (hc : c) (ha : ¬a) (hb : ¬b)
    (hd : ¬d) : ExactlyOneOfFour a b c d :=
  ⟨Or.inr (Or.inr (Or.inl hc)), fun h => ha h.1, fun h => ha h.1,
    fun h => ha h.1, fun h => hb h.1, fun h => hb h.1, fun h => hd h.2⟩

lemma exactlyOneOfFour_fourth {a b c d : Prop} (hd : d) (ha : ¬a) (hb : ¬b)
    (hc : ¬c) : ExactlyOneOfFour a b c d :=
  ⟨Or.inr (Or.inr (Or.inr hd)), fun h => ha h.1, fun h => ha h.1,
    fun h => ha h.1, fun h => hb h.1, fun h => hb h.1, fun h => hc h.1⟩

lemma exactlyOne_asyncShape (st : BotState) (ack : Option String) (ok : Bool)
    (hid : Nat) (args : String) :
    ExactlyOneOfFour
      (firedAsync (storeEvents st ++
        (ackEvents ack ok ++ [Event.submitAsync hid args])))
      (firedSync (storeEvents st ++
        (ackEvents ack ok ++ [Event.submitAsync hid args])))
      (firedUnknown (storeEvents st ++
        (ackEvents ack ok ++ [Event.submitAsync hid args])))
      (firedCatchAll st (storeEvents st ++
        (ackEvents ack ok ++ [Event.submitAsync hid args]))) := by
  apply exactlyOneOfFour_first
  · exact ⟨hid, args, by simp⟩
  · rintro ⟨hid', args', r', hmem⟩
    rcases mem_async_shape hmem with h | ⟨s, h⟩ | h <;> cases h
  · rintro ⟨hid', s', r', hmem⟩
    rcases mem_async_shape hmem with h | ⟨s, h⟩ | h <;> cases h
  · intro hcat
    unfold firedCatchAll at hcat
    have hm : Event.submitAsync hid args ∈ storeEvents st ++ catchAllEvents st := by
      rw [← hcat]
      simp
    rcases mem_store_catch hm with h | ⟨hid2, r2, h⟩ <;> cases h

lemma exactlyOne_syncShape (st : BotState) (hid : Nat) (args : String)
    (r : Bool) :
    ExactlyOneOfFour
      (firedAsync (storeEvents st ++ [Event.invokeSync hid args r]))
      (firedSync (storeEvents st ++ [Event.invokeSync hid args r]))
      (firedUnknown (storeEvents st ++ [Event.invokeSync hid args r]))
      (firedCatchAll st (storeEvents st ++ [Event.invokeSync hid args r])) := by
  apply exactlyOneOfFour_second
  · exact ⟨hid, args, r, by simp⟩
  · rintro ⟨hid', args', hmem⟩
    rcases mem_store_single hmem with h | h <;> cases h
  · rintro ⟨hid', s', r', hmem⟩
    rcases mem_store_single hmem with h | h <;> cases h
  · intro hcat
    unfold firedCatchAll at hcat
    have hm : Event.invokeSync hid args r ∈ storeEvents st ++ catchAllEvents st := by
      rw [← hcat]
      simp
    rcases mem_store_catch hm with h | ⟨hid2, r2, h⟩ <;> cases h

lemma exactlyOne_unknownShape (st : BotState) (hid : Nat) (s : String)
    (r : Bool) :
    ExactlyOneOfFour
      (firedAsync (storeEvents st ++ [Event.invokeUnknown hid s r]))
      (firedSync (storeEvents st ++ [Event.invokeUnknown hid s r]))
      (firedUnknown (storeEvents st ++ [Event.invokeUnknown hid s r]))
      (firedCatchAll st (storeEvents st ++ [Event.invokeUnknown hid s r])) := by
  apply exactlyOneOfFour_third
  · exact ⟨hid, s, r, by simp⟩
  · rintro ⟨hid', args', hmem⟩
    rcases mem_store_single hmem with h | h <;> cases h
  · rintro ⟨hid', args', r', hmem⟩
    rcases mem_store_single hmem with h | h <;> cases h
  · intro hcat
    unfold firedCatchAll at hcat
    have hm : Event.invokeUnknown hid s r ∈ storeEvents st ++ catchAllEvents st := by
      rw [← hcat]
      simp
    rcases mem_store_catch hm with h | ⟨hid2, r2, h⟩ <;> cases h

lemma exactlyOne_catchShape (st : BotState) :
    ExactlyOneOfFour
      (firedAsync (storeEvents st ++ catchAllEvents st))
      (firedSync (storeEvents st ++ catchAllEvents st))
      (firedUnknown (storeEvents st ++ catchAllEvents st))
      (firedCatchAll st (storeEvents st ++ catchAllEvents st)) :=
  exactlyOneOfFour_fourth rfl (not_firedAsync_store_catch st)
    (not_firedSync_store_catch st) (not_firedUnknown_store_catch st)

/-- Claim C1 counterexample: one catch-all handler, no registered command
or async command, no unknown-command handler; the marker-prefixed text
"/bogus" is dispatched to the catch-all handler rather than silently
dropped, because in the source the `return` of the unknown-command block
sits inside `if self._unknown_command_handler:`. -/
theorem claim_C1_counterexample :
    process_message stOneCatch true (userMsg (some "/bogus")) =
      [Event.invokeCatchAll 0 false] := by
  decide

/-- Claim C1 (amended): for a non-bot message whose text starts with "/"
or "!" and matches no registered command or async command, dispatch
invokes only the unknown-command handler and never a catch-all handler
when such a handler is registered; when none is registered the message
falls through to the catch-all fan-out instead of being silently
dropped. -/
theorem claim_C1_amended (st : BotState) (sendOk : Bool) (msg : Message)
    (t : String) (hs : msg.sender_type ≠ "bot") (ht : msg.text = some t)
    (ht0 : t ≠ "") (hmark : looksLikeCommand t = true)
    (hasync : firstMatch t st.asyncCommands = none)
    (hcmd : firstMatch t st.commands = none) :
    (∀ h, st.unknownCommandHandler = some h →
      process_message st sendOk msg =
        storeEvents st ++ [Event.invokeUnknown h.hid t h.raises] ∧
      ∀ hid r, Event.invokeCatchAll hid r ∉ process_message st sendOk msg) ∧
    (st.unknownCommandHandler = none →
      process_message st sendOk msg = storeEvents st ++ catchAllEvents st) := by
  constructor
  · intro h hu
    have heq : process_message st sendOk msg =
        storeEvents st ++ [Event.invokeUnknown h.hid t h.raises] := by
      rw [process_message_text hs ht ht0]
      simp [dispatchText, hasync, hcmd, hmark, hu]
    refine ⟨heq, ?_⟩
    intro hid r hmem
    rw [heq] at hmem
    rcases mem_store_single hmem with hx | hx <;> cases hx
  · intro hu
    rw [process_message_text hs ht ht0]
    simp [dispatchText, hasync, hcmd, hmark, hu]

/-- Claim C1 amended witness: with an unknown-command handler registered,
"/bogus" goes only to it and no catch-all handler runs. -/
theorem claim_C1_amended_witness :
    process_message stUnknown true (userMsg (some "/bogus")) =
      storeEvents stUnknown ++ [Event.invokeUnknown 5 "/bogus" false] ∧
    ∀ hid r, Event.invokeCatchAll hid r ∉
      process_message stUnknown true (userMsg (some "/bogus")) :=
  (claim_C1_amended stUnknown true (userMsg (some "/bogus")) "/bogus"
    (by decide) rfl (by decide) (by decide) rfl rfl).1 ⟨5, false⟩ rfl

/-- Claim C2: for every non-bot message with text present, exactly one of
the async-command, sync-command, unknown-command and catch-all branches
fires during a single dispatch call, never two. -/
theorem claim_C2 (st : BotState) (sendOk : Bool) (msg : Message) (t : String)
    (hs : msg.sender_type ≠ "bot") (ht : msg.text = some t) :
    ExactlyOneOfFour (firedAsync (process_message st sendOk msg))
      (firedSync (process_message st sendOk msg))
      (firedUnknown (process_message st sendOk msg))
      (firedCatchAll st (process_message st sendOk msg)) := by
  by_cases ht0 : t = ""
  · subst ht0
    rw [process_message_noText hs (Or.inr ht)]
    exact exactlyOne_catchShape st
  · rw [process_message_text hs ht ht0]
    rcases hfm : firstMatch t st.asyncCommands with _ | ⟨pfx, h, ack⟩
    · rcases hcm : firstMatch t st.commands with _ | ⟨pfx, h⟩
      · rcases hu : st.unknownCommandHandler with _ | h
        · have hdt : dispatchText st sendOk t = catchAllEvents st := by
            simp [dispatchText, hfm, hcm, hu]
          rw [hdt]
          exact exactlyOne_catchShape st
        · by_cases hlk : looksLikeCommand t
          · have hdt : dispatchText st sendOk t =
                [Event.invokeUnknown h.hid t h.raises] := by
              simp [dispatchText, hfm, hcm, hu, hlk]
            rw [hdt]
            exact exactlyOne_unknownShape st h.hid t h.raises
          · have hdt : dispatchText st sendOk t = catchAllEvents st := by
              simp [dispatchText, hfm, hcm, hlk]
            rw [hdt]
            exact exactlyOne_catchShape st
      · have hdt : dispatchText st sendOk t =
            [Event.invokeSync h.hid (argsAfter t pfx) h.raises] := by
          simp [dispatchText, hfm, hcm]
        rw [hdt]
        exact exactlyOne_syncShape st h.hid (argsAfter t pfx) h.raises
    · have hdt : dispatchText st sendOk t =
          ackEvents ack sendOk ++
            [Event.submitAsync h.hid (argsAfter t pfx)] := by
        simp [dispatchText, hfm]
      rw [hdt]
      exact exactlyOne_asyncShape st ack sendOk h.hid (argsAfter t pfx)

/-- Claim C2 witness: with one sync command registered, dispatching a
matching user message fires exactly one branch. -/
theorem claim_C2_witness :
    ExactlyOneOfFour
      (firedAsync (process_message (command emptyState "/echo" ⟨7, false⟩)
        true (userMsg (some "/echo hi"))))
      (firedSync (process_message (command emptyState "/echo" ⟨7, false⟩)
        true (userMsg (some "/echo hi"))))
      (firedUnknown (process_message (command emptyState "/echo" ⟨7, false⟩)
        true (userMsg (some "/echo hi"))))
      (firedCatchAll (command emptyState "/echo" ⟨7, false⟩)
        (process_message (command emptyState "/echo" ⟨7, false⟩)
          true (userMsg (some "/echo hi")))) :=
  claim_C2 (command emptyState "/echo" ⟨7, false⟩) true
    (userMsg (some "/echo hi")) "/echo hi" (by decide) rfl

/-- Claim C3: when the catch-all branch fires (non-bot sender and the text
slot gives no command route), every registered catch-all handler is
invoked, in registration order, including every handler whose call raises;
the embedded dispatch is a total function returning this full trace, so a
raising handler neither stops its successors nor escapes dispatch. -/
theorem claim_C3 (st : BotState) (sendOk : Bool) (msg : Message)
    (hs : msg.sender_type ≠ "bot")
    (hroute : ∀ t, msg.text = some t → t ≠ "" →
      firstMatch t st.asyncCommands = none ∧
        firstMatch t st.commands = none ∧ looksLikeCommand t = false) :
    process_message st sendOk msg = storeEvents st ++ catchAllEvents st ∧
    ∀ h ∈ st.handlers,
      Event.invokeCatchAll h.hid h.raises ∈ process_message st sendOk msg := by
  have heq : process_message st sendOk msg =
      storeEvents st ++ catchAllEvents st := by
    rcases ht : msg.text with _ | t
    · exact process_message_noText hs (Or.inl ht)
    · by_cases ht0 : t = ""
      · subst ht0
        exact process_message_noText hs (Or.inr ht)
      · obtain ⟨hasync, hcmd, hlk⟩ := hroute t ht ht0
        rw [process_message_text hs ht ht0]
        simp [dispatchText, hasync, hcmd, hlk]
  refine ⟨heq, ?_⟩
  intro h hm
  rw [heq]
  exact List.mem_append.mpr (Or.inr (List.mem_map.mpr ⟨h, hm, rfl⟩))

/-- Claim C3 witness: with two catch-all handlers where the first raises,
a plain user message still produces the full ordered fan-out. -/
theorem claim_C3_witness :
    process_message stTwoCatch true (userMsg (some "hello")) =
      storeEvents stTwoCatch ++ catchAllEvents stTwoCatch ∧
    ∀ h ∈ stTwoCatch.handlers,
      Event.invokeCatchAll h.hid h.raises ∈
        process_message stTwoCatch true (userMsg (some "hello")) :=
  claim_C3 stTwoCatch true (userMsg (some "hello")) (by decide)
    (by
      intro t ht ht0
      cases ht
      exact ⟨rfl, rfl, by decide⟩)

/-- Claim C4 counterexample: with an acknowledgment string registered but
equal to "", an async-command match sends no acknowledgment at all before
the background hand-off, because the source guards the send with Python
truthiness (`if ack_message:`), which treats "" like None. -/
theorem claim_C4_counterexample :
    process_message stEmptyAck true (userMsg (some "/th x")) =
      [Event.submitAsync 3 "x"] := by
  decide

/-- Claim C4: on an async-command match the trace is the storage pre-step,
then the acknowledgment send when a non-empty acknowledgment string was
registered (recorded even when the send fails, which is caught), then the
hand-off of the handler to background execution with the stripped and
trimmed args; no sync-command, unknown-command or catch-all handler is
invoked in-line. -/
theorem claim_C4 (st : BotState) (sendOk : Bool) (msg : Message)
    (t pfx : String) (h : Handler) (ack : Option String)
    (hs : msg.sender_type ≠ "bot") (ht : msg.text = some t) (ht0 : t ≠ "")
    (hasync : firstMatch t st.asyncCommands = some (pfx, h, ack)) :
    process_message st sendOk msg =
      storeEvents st ++
        (ackEvents ack sendOk ++ [Event.submitAsync h.hid (argsAfter t pfx)]) ∧
    Event.submitAsync h.hid (argsAfter t pfx) ∈ process_message st sendOk msg ∧
    (∀ hid args r, Event.invokeSync hid args r ∉ process_message st sendOk msg) ∧
    (∀ hid s r, Event.invokeUnknown hid s r ∉ process_message st sendOk msg) ∧
    (∀ hid r, Event.invokeCatchAll hid r ∉ process_message st sendOk msg) := by
  have heq : process_message st sendOk msg =
      storeEvents st ++
        (ackEvents ack sendOk ++
          [Event.submitAsync h.hid (argsAfter t pfx)]) := by
    rw [process_message_text hs ht ht0]
    simp [dispatchText, hasync]
  refine ⟨heq, ?_, ?_, ?_, ?_⟩
  · rw [heq]
    simp
  · intro hid args r hmem
    rw [heq] at hmem
    rcases mem_async_shape hmem with hx | ⟨s, hx⟩ | hx <;> cases hx
  · intro hid s r hmem
    rw [heq] at hmem
    rcases mem_async_shape hmem with hx | ⟨s', hx⟩ | hx <;> cases hx
  · intro hid r hmem
    rw [heq] at hmem
    rcases mem_async_shape hmem with hx | ⟨s', hx⟩ | hx <;> cases hx

/-- Claim C4 witness: "/think why" sends the acknowledgment first — here
with a failing send (`sendOk = false`), which is caught — and still hands
the handler to background execution with args "why". -/
theorem claim_C4_witness :
    process_message stAsync false (userMsg (some "/think why")) =
      storeEvents stAsync ++
        (ackEvents (some "Thinking...") false ++
          [Event.submitAsync 3 (argsAfter "/think why" "/think")]) ∧
    Event.submitAsync 3 (argsAfter "/think why" "/think") ∈
      process_message stAsync false (userMsg (some "/think why")) ∧
    (∀ hid args r, Event.invokeSync hid args r ∉
      process_message stAsync false (userMsg (some "/think why"))) ∧
    (∀ hid s r, Event.invokeUnknown hid s r ∉
      process_message stAsync false (userMsg (some "/think why"))) ∧
    (∀ hid r, Event.invokeCatchAll hid r ∉
      process_message stAsync false (userMsg (some "/think why"))) :=
  claim_C4 stAsync false (userMsg (some "/think why")) "/think why" "/think"
    ⟨3, false⟩ (some "Thinking...") (by decide) rfl (by decide) rfl

/-- Claim C5: on a sync-command match the handler is invoked in-line with
args equal to the text with the matched prefix removed from the front and
surrounding whitespace stripped. -/
theorem claim_C5 (st : BotState) (sendOk : Bool) (msg : Message)
    (t pfx : String) (h : Handler) (hs : msg.sender_type ≠ "bot")
    (ht : msg.text = some t) (ht0 : t ≠ "")
    (hasync : firstMatch t st.asyncCommands = none)
    (hcmd : firstMatch t st.commands = some (pfx, h)) :
    process_message st sendOk msg =
      storeEvents st ++ [Event.invokeSync h.hid (argsAfter t pfx) h.raises] := by
  rw [process_message_text hs ht ht0]
  simp [dispatchText, hasync, hcmd]

/-- Claim C5 witness: registered command "/echo" with input text
"/echo  hello world" hands the handler args "hello world". -/
theorem claim_C5_witness :
    process_message stEcho true (userMsg (some "/echo  hello world")) =
      [Event.invokeSync 7 "hello world" false] := by
  have h := claim_C5 stEcho true (userMsg (some "/echo  hello world"))
    "/echo  hello world" "/echo" ⟨7, false⟩ (by decide) rfl (by decide) rfl rfl
  rw [h]
  decide

/-- Claim C6: for every message whose sender kind is "bot", dispatch
invokes no handler of any kind — the trace is only the storage pre-step,
whose every event is the storage write. -/
theorem claim_C6 (st : BotState) (sendOk : Bool) (msg : Message)
    (hs : msg.sender_type = "bot") :
    process_message st sendOk msg = storeEvents st ∧
    ∀ e ∈ process_message st sendOk msg, e = Event.storeReceived := by
  have heq : process_message st sendOk msg = storeEvents st := by
    simp [process_message, hs]
  refine ⟨heq, ?_⟩
  intro e he
  rw [heq] at he
  exact mem_storeEvents he

/-- Claim C6 witness: a bot-sent text message produces no handler event
even with a catch-all handler registered. -/
theorem claim_C6_witness :
    process_message stOneCatch true (botMsg (some "hi")) =
      storeEvents stOneCatch ∧
    ∀ e ∈ process_message stOneCatch true (botMsg (some "hi")),
      e = Event.storeReceived :=
  claim_C6 stOneCatch true (botMsg (some "hi")) rfl

/-- Claim C7: registering two command handlers for the same prefix leaves
the registry state identical to registering only the second one (last
registration wins silently), and a subsequent matching dispatch invokes
the second handler, never the first. -/
theorem claim_C7 (st : BotState) (pfx : String) (h1 h2 : Handler) :
    command (command st pfx h1) pfx h2 = command st pfx h2 ∧
    (∀ sendOk msg t, msg.sender_type ≠ "bot" → msg.text = some t → t ≠ "" →
      st.commands = [] → firstMatch t st.asyncCommands = none →
      pyStartsWith t pfx = true →
      process_message (command (command st pfx h1) pfx h2) sendOk msg =
        storeEvents st ++
          [Event.invokeSync h2.hid (argsAfter t pfx) h2.raises]) := by
  have hst : command (command st pfx h1) pfx h2 = command st pfx h2 := by
    simp only [command]
    rw [dictAssign_same]
  refine ⟨hst, ?_⟩
  intro sendOk msg t hs ht ht0 hempty hasync hpre
  rw [hst, process_message_text hs ht ht0]
  have hc : firstMatch t (command st pfx h2).commands = some (pfx, h2) := by
    show firstMatch t (dictAssign pfx h2 st.commands) = some (pfx, h2)
    rw [hempty]
    simp [dictAssign, firstMatch, hpre]
  have ha : firstMatch t (command st pfx h2).asyncCommands = none := hasync
  simp [dispatchText, ha, hc]
  rfl

/-- Claim C7 witness: after registering handler 1 and then handler 2 for
"/dup", a matching dispatch invokes handler 2 only. -/
theorem claim_C7_witness :
    command (command emptyState "/dup" ⟨1, true⟩) "/dup" ⟨2, false⟩ =
      command emptyState "/dup" ⟨2, false⟩ ∧
    process_message (command (command emptyState "/dup" ⟨1, true⟩) "/dup"
        ⟨2, false⟩) true (userMsg (some "/dup x")) =
      storeEvents emptyState ++
        [Event.invokeSync 2 (argsAfter "/dup x" "/dup") false] := by
  have h := claim_C7 emptyState "/dup" ⟨1, true⟩ ⟨2, false⟩
  exact ⟨h.1, h.2 true (userMsg (some "/dup x")) "/dup x" (by decide) rfl
    (by decide) rfl rfl (by decide)⟩

/-- Claim C8: the constructed Message always carries id, group id and
sender id, each defaulted to the empty string when the payload omits it,
and carries text none (never an empty-string sentinel) when the payload
has no text, while present text is passed through unchanged. -/
theorem claim_C8 (d : Payload) :
    (d.id = none → (Message.from_dict d).id = "") ∧
    (d.group_id = none → (Message.from_dict d).group_id = "") ∧
    (d.user_id = none → (Message.from_dict d).user_id = "") ∧
    (d.text = none → (Message.from_dict d).text = none) ∧
    (∀ s, d.text = some s → (Message.from_dict d).text = some s) :=
  ⟨fun h => by simp [Message.from_dict, h],
   fun h => by simp [Message.from_dict, h],
   fun h => by simp [Message.from_dict, h],
   fun h => by simp [Message.from_dict, h],
   fun s h => by simp [Message.from_dict, h]⟩

/-- Claim C8 witness: on the all-absent payload the constructed Message
has empty-string id, group id and sender id, and text none. -/
theorem claim_C8_witness :
    (Message.from_dict emptyPayload).id = "" ∧
    (Message.from_dict emptyPayload).group_id = "" ∧
    (Message.from_dict emptyPayload).user_id = "" ∧
    (Message.from_dict emptyPayload).text = none :=
  ⟨(claim_C8 emptyPayload).1 rfl, (claim_C8 emptyPayload).2.1 rfl,
    (claim_C8 emptyPayload).2.2.1 rfl, (claim_C8 emptyPayload).2.2.2.1 rfl⟩

/-- Claim C9: when a prefix is registered both as an async command and as
a sync command and the text matches it, the async scan finds a match, the
dispatch trace is the async shape, and no sync handler is ever invoked —
the async table is consulted first, so the outcome is deterministic. -/
theorem claim_C9 (st : BotState) (sendOk : Bool) (msg : Message)
    (t p : String) (hA hS : Handler) (ack : Option String)
    (hs : msg.sender_type ≠ "bot") (ht : msg.text = some t) (ht0 : t ≠ "")
    (hmemA : (p, hA, ack) ∈ st.asyncCommands)
    (_hmemS : (p, hS) ∈ st.commands)
    (hpre : pyStartsWith t p = true) :
    (∃ q h a, firstMatch t st.asyncCommands = some (q, h, a) ∧
      process_message st sendOk msg =
        storeEvents st ++
          (ackEvents a sendOk ++ [Event.submitAsync h.hid (argsAfter t q)])) ∧
    (∀ hid args r, Event.invokeSync hid args r ∉ process_message st sendOk msg) ∧
    firedAsync (process_message st sendOk msg) := by
  obtain ⟨q, w, hfm⟩ := firstMatch_isSome_of_mem hmemA hpre
  obtain ⟨h, a⟩ := w
  have heq : process_message st sendOk msg =
      storeEvents st ++
        (ackEvents a sendOk ++ [Event.submitAsync h.hid (argsAfter t q)]) := by
    rw [process_message_text hs ht ht0]
    simp [dispatchText, hfm]
  refine ⟨⟨q, h, a, hfm, heq⟩, ?_, ?_⟩
  · intro hid args r hmem
    rw [heq] at hmem
    rcases mem_async_shape hmem with hx | ⟨s, hx⟩ | hx <;> cases hx
  · refine ⟨h.hid, argsAfter t q, ?_⟩
    rw [heq]
    simp

/-- Claim C9 witness: with "/dup" registered in both tables, dispatching
"/dup x" goes to the async branch and invokes no sync handler. -/
theorem claim_C9_witness :
    (∃ q h a, firstMatch "/dup x" stDup.asyncCommands = some (q, h, a) ∧
      process_message stDup true (userMsg (some "/dup x")) =
        storeEvents stDup ++
          (ackEvents a true ++
            [Event.submitAsync h.hid (argsAfter "/dup x" q)])) ∧
    (∀ hid args r, Event.invokeSync hid args r ∉
      process_message stDup true (userMsg (some "/dup x"))) ∧
    firedAsync (process_message stDup true (userMsg (some "/dup x"))) :=
  claim_C9 stDup true (userMsg (some "/dup x")) "/dup x" "/dup" ⟨2, false⟩
    ⟨1, false⟩ none (by decide) rfl (by decide) (by decide) (by decide)
    (by decide)

/-- Claim C10: a non-bot message whose text is present but equal to "" is
routed by the no-text branch: the trace is the full catch-all fan-out,
identical to dispatching the same message with text absent, and no
sync-command, async-command or unknown-command handler can fire. -/
theorem claim_C10 (st : BotState) (sendOk : Bool) (msg : Message)
    (hs : msg.sender_type ≠ "bot") (ht : msg.text = some "") :
    process_message st sendOk msg = storeEvents st ++ catchAllEvents st ∧
    process_message st sendOk msg =
      process_message st sendOk { msg with text := none } ∧
    (∀ hid args, Event.submitAsync hid args ∉ process_message st sendOk msg) ∧
    (∀ hid args r, Event.invokeSync hid args r ∉ process_message st sendOk msg) ∧
    (∀ hid s r, Event.invokeUnknown hid s r ∉ process_message st sendOk msg) := by
  have heq : process_message st sendOk msg =
      storeEvents st ++ catchAllEvents st :=
    process_message_noText hs (Or.inr ht)
  have heq2 : process_message st sendOk { msg with text := none } =
      storeEvents st ++ catchAllEvents st :=
    process_message_noText hs (Or.inl rfl)
  refine ⟨heq, heq.trans heq2.symm, ?_, ?_, ?_⟩
  · intro hid args hmem
    rw [heq] at hmem
    exact not_firedAsync_store_catch st ⟨hid, args, hmem⟩
  · intro hid args r hmem
    rw [heq] at hmem
    exact not_firedSync_store_catch st ⟨hid, args, r, hmem⟩
  · intro hid s r hmem
    rw [heq] at hmem
    exact not_firedUnknown_store_catch st ⟨hid, s, r, hmem⟩

/-- Claim C10 witness: a user message with empty-string text and one
registered catch-all handler takes the no-text fan-out. -/
theorem claim_C10_witness :
    process_message stOneCatch true (userMsg (some "")) =
      storeEvents stOneCatch ++ catchAllEvents stOneCatch ∧
    process_message stOneCatch true (userMsg (some "")) =
      process_message stOneCatch true { userMsg (some "") with text := none } ∧
    (∀ hid args, Event.submitAsync hid args ∉
      process_message stOneCatch true (userMsg (some ""))) ∧
    (∀ hid args r, Event.invokeSync hid args r ∉
      process_message stOneCatch true (userMsg (some ""))) ∧
    (∀ hid s r, Event.invokeUnknown hid s r ∉
      process_message stOneCatch true (userMsg (some ""))) :=
  claim_C10 stOneCatch true (userMsg (some "")) (by decide) rfl

end GroupPy
